import Mathlib

/-!
Verification of the csi-cloudscale controller (`driver/controller.go`).

This file shallowly embeds the data model and the controller operations of
the repository and proves properties of them.  Pure Go functions become Lean
functions; the remote cloudscale block-storage client is modelled as a record
of call results, and every operation additionally returns the ordered list of
remote calls it issued, so that "no remote mutation happened" is a statement
about that trace.  Go `int`/`int64` arithmetic is modelled on `Int`, with
64-bit two's-complement wrap-around (`wrap64`) applied at every
multiplication whose operands are not compile-time constants.
-/

set_option maxRecDepth 16384

namespace CSC

/-- 64-bit two's-complement wrap-around, the behaviour of Go `int64`
multiplication on overflow. -/
def wrap64 (x : Int) : Int := (x + 2 ^ 63) % 2 ^ 64 - 2 ^ 63

/-- `1 << 10` (controller.go `KB`). -/
def KB : Int := 1024

/-- `1 << 20` (controller.go `MB`). -/
def MB : Int := 1048576

/-- `1 << 30` (controller.go `GB`): the byte value of one gigabyte. -/
def GB : Int := 1073741824

/-- `1 << 40` (controller.go `TB`). -/
def TB : Int := 1099511627776

/-- Allowed size increment for SSD volumes, in GB (controller.go
`SSDStepSizeGB`). -/
def SSDStepSizeGB : Int := 1

/-- Allowed size increment for bulk volumes, in GB (controller.go
`BulkStepSizeGB`). -/
def BulkStepSizeGB : Int := 100

/-- Modelled from the spec: the driver name used as namespace of the
volume-context attribute keys.  `driver.go`, which defines `DriverName`, is
not among the sources; the claims treat the key strings as opaque. -/
def DriverName : String := "csi.cloudscale.ch"

/-- controller.go `PublishInfoVolumeName`. -/
def PublishInfoVolumeName : String := DriverName ++ "/volume-name"

/-- controller.go `StorageTypeAttribute`: storage type of the volume, must be
either "ssd" or "bulk". -/
def StorageTypeAttribute : String := DriverName ++ "/volume-type"

/-- Modelled from the spec: the LUKS-encryption flag attribute key defined in
the node part of the driver (not among the sources); opaque to the claims. -/
def LuksEncryptedAttribute : String := DriverName ++ "/luks-encrypted"

/-- Modelled from the spec: the LUKS cipher attribute key (not among the
sources); opaque to the claims. -/
def LuksCipherAttribute : String := DriverName ++ "/luks-cipher"

/-- Modelled from the spec: the LUKS key-size attribute key (not among the
sources); opaque to the claims. -/
def LuksKeySizeAttribute : String := DriverName ++ "/luks-key-size"

/-- A capacity range of a CSI request (`csi.CapacityRange`): both fields are
Go `int64` values. -/
structure CapacityRange where
  requiredBytes : Int
  limitBytes : Int
deriving DecidableEq, Repr

/-- The error cases of `calculateStorageGB`.  The Go function returns
`fmt.Errorf` values whose text is built with `formatBytes` (float
formatting); only the identity of each error case is modelled here. -/
inductive CalcErr
  | limitLessThanRequired
  | limitBelowMinimumStep
  | limitLessThanRoundedSize
deriving DecidableEq, Repr

/-- Representative message text for a `CalcErr` (the Go messages are
`fmt.Errorf` strings; their float formatting is abstracted). -/
def calcErrMessage : CalcErr → String
  | .limitLessThanRequired => "limit can not be less than required size"
  | .limitBelowMinimumStep => "limit can not be less than minimum supported volume size"
  | .limitLessThanRoundedSize => "for required size limit must be at least the rounded size"

/-- controller.go `calculateStorageGB` (lines 554-597): extracts the storage
size in GB from the given capacity range.  Go `int64` division truncates
toward zero (`Int.tdiv`); multiplication wraps (`wrap64`). -/
def calculateStorageGB (capRange : Option CapacityRange) (storageType : String) :
    Except CalcErr Int :=
  let sizeIncrements : Int := if storageType = "bulk" then BulkStepSizeGB else SSDStepSizeGB
  match capRange with
  | none => .ok sizeIncrements
  | some capRange =>
    let requiredBytes := capRange.requiredBytes
    let requiredSet := 0 < requiredBytes
    let limitBytes := capRange.limitBytes
    let limitSet := 0 < limitBytes
    if ¬requiredSet ∧ ¬limitSet then
      .ok sizeIncrements
    else if requiredSet ∧ limitSet ∧ limitBytes < requiredBytes then
      .error .limitLessThanRequired
    else if limitSet ∧ limitBytes < sizeIncrements * GB then
      .error .limitBelowMinimumStep
    else
      let steps := (requiredBytes.tdiv GB).tdiv sizeIncrements
      let steps := if wrap64 (wrap64 (steps * GB) * sizeIncrements) < requiredBytes then
        steps + 1 else steps
      let sizeGB := wrap64 (steps * sizeIncrements)
      if limitSet ∧ limitBytes < wrap64 (sizeGB * GB) then
        .error .limitLessThanRoundedSize
      else
        .ok sizeGB

/-- gRPC status codes used by the controller (`google.golang.org/grpc/codes`). -/
inductive Code
  | OK
  | InvalidArgument
  | ResourceExhausted
  | AlreadyExists
  | Internal
  | NotFound
  | Aborted
  | OutOfRange
  | Unimplemented
deriving DecidableEq, Repr

/-- An error returned by the cloudscale client: either a structured
`*cloudscale.ErrorResponse` (with an HTTP status code) or any other Go
`error`.  The `message` field stands for the `Error()` string. -/
inductive BackendErr
  | errorResponse (statusCode : Int) (message : String)
  | other (message : String)
deriving DecidableEq, Repr

/-- The `Error()` string of a backend error. -/
def BackendErr.errorString : BackendErr → String
  | .errorResponse _ m => m
  | .other m => m

/-- An error returned by a controller operation: a gRPC status error, a plain
`fmt.Errorf` error, or a backend error returned to the caller unmodified. -/
inductive DriverErr
  | statusErr (code : Code) (message : String)
  | goError (message : String)
  | backendErr (e : BackendErr)
deriving DecidableEq, Repr

/-- A `cloudscale.Volume` as the controller reads it. -/
structure Volume where
  uuid : String
  name : String
  sizeGB : Int
  type : String
  serverUUIDs : List String
deriving DecidableEq, Repr

/-- A `cloudscale.VolumeRequest` (fields default to Go zero values). -/
structure VolumeRequest where
  name : String := ""
  sizeGB : Int := 0
  type : String := ""
  serverUUIDs : Option (List String) := none
  zone : String := ""
deriving DecidableEq, Repr

/-- One remote call on the cloudscale client, as recorded in an operation's
trace.  `create`, `update` and `delete` are the mutating calls. -/
inductive Call
  | list (nameFilter : Option String)
  | create (req : VolumeRequest)
  | update (volumeID : String) (req : VolumeRequest)
  | get (volumeID : String)
  | delete (volumeID : String)
deriving DecidableEq, Repr

/-- The behaviour of the remote cloudscale volume service for one request:
each operation of the controller issues each kind of call at most once, so
one result per call kind fully determines a run. -/
structure VolumesBackend where
  listResult : Except BackendErr (List Volume)
  createResult : Except BackendErr Volume
  getResult : Except BackendErr Volume
  updateResult : Except BackendErr Unit
  deleteResult : Except BackendErr Unit

/-- The controller state the claims depend on: its configured zone
(`Driver.zone`). -/
structure Driver where
  zone : String
deriving DecidableEq, Repr

/-- `csi.VolumeCapability_AccessMode_Mode` values (a representative subset,
with `UNKNOWN` the Go zero value returned by `GetMode()` on nil). -/
inductive AccessMode
  | UNKNOWN
  | SINGLE_NODE_WRITER
  | SINGLE_NODE_READER_ONLY
  | MULTI_NODE_READER_ONLY
  | MULTI_NODE_SINGLE_WRITER
  | MULTI_NODE_MULTI_WRITER
deriving DecidableEq, Repr

/-- The Go `String()` name of an access mode, used in violation messages. -/
def AccessMode.modeName : AccessMode → String
  | .UNKNOWN => "UNKNOWN"
  | .SINGLE_NODE_WRITER => "SINGLE_NODE_WRITER"
  | .SINGLE_NODE_READER_ONLY => "SINGLE_NODE_READER_ONLY"
  | .MULTI_NODE_READER_ONLY => "MULTI_NODE_READER_ONLY"
  | .MULTI_NODE_SINGLE_WRITER => "MULTI_NODE_SINGLE_WRITER"
  | .MULTI_NODE_MULTI_WRITER => "MULTI_NODE_MULTI_WRITER"

/-- `GetAccessMode().GetMode()`: nil-safe read of the mode. -/
def getMode : Option AccessMode → AccessMode
  | none => .UNKNOWN
  | some m => m

/-- The access type of a `csi.VolumeCapability`: the `Block` or `Mount`
oneof member, or neither set. -/
inductive AccessType
  | block
  | mount
  | unspecified
deriving DecidableEq, Repr

/-- A `csi.VolumeCapability`. -/
structure VolumeCapability where
  accessMode : Option AccessMode
  accessType : AccessType
deriving DecidableEq, Repr

/-- controller.go `supportedAccessMode`: the single supported access mode. -/
def supportedAccessMode : AccessMode := .SINGLE_NODE_WRITER

/-- Insertion into a sorted duplicate-free list of strings: the behaviour of
`sets.String.Insert` followed by `.List()` (sorted set semantics). -/
def insertSorted (s : String) : List String → List String
  | [] => [s]
  | x :: xs => if s = x then x :: xs else if s < x then s :: x :: xs else x :: insertSorted s xs

/-- controller.go `validateCapabilities` (lines 627-644): returns the sorted
set of violation messages, which is empty iff the capabilities are
satisfiable. -/
def validateCapabilities (caps : List VolumeCapability) : List String :=
  caps.foldl
    (fun violations cap =>
      let violations :=
        if getMode cap.accessMode ≠ supportedAccessMode then
          insertSorted ("unsupported access mode " ++ (getMode cap.accessMode).modeName)
            violations
        else violations
      match cap.accessType with
      | .block => violations
      | .mount => violations
      | .unspecified => insertSorted "unsupported access type" violations)
    []

/-- controller.go `validateLuksCapabilities` (lines 646-657): LUKS encryption
is incompatible with raw block access. -/
def validateLuksCapabilities (caps : List VolumeCapability) : List String :=
  caps.foldl
    (fun violations cap =>
      match cap.accessType with
      | .block => insertSorted "Cannot use LUKS with block volumes" violations
      | _ => violations)
    []

/-- A `csi.Topology`: a map of segment keys to values. -/
structure Topology where
  segments : List (String × String)
deriving DecidableEq, Repr

/-- A `csi.TopologyRequirement` (only `Requisite` is read by the controller). -/
structure TopologyRequirement where
  requisite : List Topology
deriving DecidableEq, Repr

/-- Go map read with presence flag: `v, ok := m[k]`. -/
def lookupKey : List (String × String) → String → Option String
  | [], _ => none
  | (k, v) :: rest, key => if k = key then some v else lookupKey rest key

/-- Go map read without presence flag: `m[k]` yields the zero value `""`
when the key is absent (and on a nil map). -/
def lookupParam (ps : List (String × String)) (k : String) : String :=
  match lookupKey ps k with
  | some v => v
  | none => ""

/-- The zone-requirement loop of `CreateVolume` (controller.go lines 89-97):
the first requisite topology whose "zone" segment differs from the
controller's zone, if any. -/
def zoneConflict (dzone : String) : List Topology → Option String
  | [] => none
  | t :: ts =>
    match lookupKey t.segments "zone" with
    | none => zoneConflict dzone ts
    | some zone => if zone ≠ dzone then some zone else zoneConflict dzone ts

/-- The nil-guard around the zone loop (controller.go line 88). -/
def requestZoneConflict (dzone : String) : Option TopologyRequirement → Option String
  | none => none
  | some ar => zoneConflict dzone ar.requisite

/-- A `csi.CreateVolumeRequest` (the fields the controller reads). -/
structure CreateVolumeRequest where
  name : String
  volumeCapabilities : List VolumeCapability
  parameters : List (String × String) := []
  accessibilityRequirements : Option TopologyRequirement := none
  capacityRange : Option CapacityRange := none
deriving DecidableEq, Repr

/-- controller.go lines 100-104: the storage type parameter, defaulted to
"ssd" when unspecified. -/
def effectiveStorageType (req : CreateVolumeRequest) : String :=
  let storageType := lookupParam req.parameters StorageTypeAttribute
  if storageType = "" then "ssd" else storageType

/-- A `csi.Volume` as assembled in a `CreateVolumeResponse`. -/
structure CsiVolume where
  volumeId : String := ""
  capacityBytes : Int := 0
  accessibleTopology : List Topology := []
  volumeContext : List (String × String) := []
deriving DecidableEq, Repr

/-- A `csi.CreateVolumeResponse`. -/
structure CreateVolumeResponse where
  volume : CsiVolume
deriving DecidableEq, Repr

/-- controller.go `CreateVolume` (lines 75-194), returning the result paired
with the trace of remote calls issued. -/
def CreateVolume (d : Driver) (b : VolumesBackend) (req : CreateVolumeRequest) :
    Except DriverErr CreateVolumeResponse × List Call :=
  if req.name = "" then
    (.error (.statusErr .InvalidArgument "CreateVolume Name must be provided"), [])
  else if req.volumeCapabilities.length = 0 then
    (.error (.statusErr .InvalidArgument "CreateVolume Volume capabilities must be provided"), [])
  else if (validateCapabilities req.volumeCapabilities).length > 0 then
    (.error (.statusErr .InvalidArgument "volume capabilities cannot be satisified"), [])
  else
    match requestZoneConflict d.zone req.accessibilityRequirements with
    | some zone =>
      (.error (.statusErr .ResourceExhausted
        ("volume can be only created in zone: \"" ++ d.zone ++ "\", got: \"" ++ zone ++ "\"")), [])
    | none =>
      let storageType := effectiveStorageType req
      if ¬storageType = "ssd" ∧ ¬storageType = "bulk" then
        (.error (.statusErr .InvalidArgument
          "invalid volume type requested. Only 'ssd' or 'bulk' are supported"), [])
      else
        match calculateStorageGB req.capacityRange storageType with
        | .error err =>
          (.error (.statusErr .InvalidArgument (calcErrMessage err)), [])
        | .ok sizeGB =>
          let volumeName := req.name
          if lookupParam req.parameters LuksEncryptedAttribute = "true" ∧
              (validateLuksCapabilities req.volumeCapabilities).length > 0 then
            (.error (.statusErr .InvalidArgument "volume capabilities cannot be satisified"), [])
          else
            let luksEncrypted :=
              if lookupParam req.parameters LuksEncryptedAttribute = "true" then "true"
              else "false"
            match b.listResult with
            | .error err =>
              (.error (.statusErr .Internal err.errorString), [Call.list (some volumeName)])
            | .ok volumes =>
              let csiVolume : CsiVolume :=
                { capacityBytes := wrap64 (sizeGB * GB)
                  accessibleTopology := [⟨[("zone", d.zone)]⟩]
                  volumeContext :=
                    [(PublishInfoVolumeName, volumeName), (LuksEncryptedAttribute, luksEncrypted)] ++
                      (if luksEncrypted = "true" then
                        [(LuksCipherAttribute, lookupParam req.parameters LuksCipherAttribute),
                         (LuksKeySizeAttribute, lookupParam req.parameters LuksKeySizeAttribute)]
                      else []) }
              match volumes with
              | vol :: rest =>
                if rest.length > 0 then
                  (.error (.goError ("fatal issue: duplicate volume \"" ++ volumeName ++ "\" exists")),
                   [Call.list (some volumeName)])
                else if vol.sizeGB ≠ sizeGB then
                  (.error (.statusErr .AlreadyExists
                    ("invalid option requested size: " ++ toString sizeGB)),
                   [Call.list (some volumeName)])
                else
                  (.ok ⟨{ csiVolume with volumeId := vol.uuid }⟩, [Call.list (some volumeName)])
              | [] =>
                let volumeReq : VolumeRequest :=
                  { name := volumeName, sizeGB := sizeGB, type := storageType, zone := d.zone }
                match b.createResult with
                | .error err =>
                  (.error (.statusErr .Internal err.errorString),
                   [Call.list (some volumeName), Call.create volumeReq])
                | .ok vol =>
                  (.ok ⟨{ csiVolume with volumeId := vol.uuid }⟩,
                   [Call.list (some volumeName), Call.create volumeReq])

/-- A `csi.DeleteVolumeRequest`. -/
structure DeleteVolumeRequest where
  volumeId : String
deriving DecidableEq, Repr

/-- A `csi.DeleteVolumeResponse` (an empty message). -/
structure DeleteVolumeResponse where
deriving DecidableEq, Repr

/-- Whether a backend error is a structured `*cloudscale.ErrorResponse` with
HTTP status 404 (`http.StatusNotFound`). -/
def isNotFoundResponse : BackendErr → Bool
  | .errorResponse statusCode _ => statusCode = 404
  | .other _ => false

/-- controller.go `DeleteVolume` (lines 197-227). -/
def DeleteVolume (d : Driver) (b : VolumesBackend) (req : DeleteVolumeRequest) :
    Except DriverErr DeleteVolumeResponse × List Call :=
  if req.volumeId = "" then
    (.error (.statusErr .InvalidArgument "DeleteVolume Volume ID must be provided"), [])
  else
    match b.deleteResult with
    | .error err =>
      match err with
      | .errorResponse statusCode _ =>
        if statusCode = 404 then
          (.ok ⟨⟩, [Call.delete req.volumeId])
        else
          (.error (.backendErr err), [Call.delete req.volumeId])
      | .other _ =>
        (.error (.backendErr err), [Call.delete req.volumeId])
    | .ok _ =>
      (.ok ⟨⟩, [Call.delete req.volumeId])

/-- The literal part of the attach-limit regular expression
(controller.go line 70), up to the `\d+`. -/
def maxVolumesPhrase : String :=
  "Due to internal limitations, it is currently not possible to attach more than "

/-- Match a literal pattern at the head of a character list, returning the
remaining characters on success. -/
def matchChars : List Char → List Char → Option (List Char)
  | [], cs => some cs
  | _ :: _, [] => none
  | p :: ps, c :: cs => if c = p then matchChars ps cs else none

/-- Split off the maximal run of ASCII digits (`\d+` is followed by a
non-digit in the pattern, so maximal munch is equivalent). -/
def takeDigits : List Char → Nat × List Char
  | [] => (0, [])
  | c :: cs =>
    if c.isDigit then
      let r := takeDigits cs
      (r.1 + 1, r.2)
    else (0, c :: cs)

/-- Match the attach-limit pattern anchored at the head of the list:
the literal phrase, one or more digits, then `" volumes"`. -/
def matchLimitPhraseAt (cs : List Char) : Bool :=
  match matchChars maxVolumesPhrase.toList cs with
  | none => false
  | some rest =>
    let d := takeDigits rest
    if d.1 = 0 then false
    else (matchChars " volumes".toList d.2).isSome

/-- Unanchored search for the attach-limit pattern. -/
def searchLimitPhrase : List Char → Bool
  | [] => matchLimitPhraseAt []
  | c :: cs => matchLimitPhraseAt (c :: cs) || searchLimitPhrase cs

/-- controller.go `maxVolumesPerServerErrorMessageRe.MatchString`: whether an
error message matches the regular expression
`Due to internal limitations, it is currently not possible to attach more
than \d+ volumes` anywhere in the string. -/
def maxVolumesPerServerErrorMessageRe (s : String) : Bool :=
  searchLimitPhrase s.toList

/-- controller.go `reraiseNotFound` (lines 659-676): translate a backend
error into the caller-facing taxonomy. -/
def reraiseNotFound (err : BackendErr) (operation : String) : DriverErr :=
  match err with
  | .errorResponse statusCode _ =>
    if statusCode = 404 then
      .statusErr .NotFound err.errorString
    else
      .statusErr .Aborted (operation ++ ": Request failed")
  | .other _ =>
    .statusErr .Aborted (operation ++ ": Random error")

/-- A `csi.ControllerPublishVolumeRequest` (the fields the controller reads). -/
structure ControllerPublishVolumeRequest where
  volumeId : String
  nodeId : String
  volumeCapability : Option VolumeCapability
  readonly : Bool := false
  volumeContext : List (String × String) := []
deriving DecidableEq, Repr

/-- A `csi.ControllerPublishVolumeResponse`. -/
structure ControllerPublishVolumeResponse where
  publishContext : List (String × String)
deriving DecidableEq, Repr

/-- controller.go `ControllerPublishVolume` (lines 230-283). -/
def ControllerPublishVolume (d : Driver) (b : VolumesBackend)
    (req : ControllerPublishVolumeRequest) :
    Except DriverErr ControllerPublishVolumeResponse × List Call :=
  if req.volumeId = "" then
    (.error (.statusErr .InvalidArgument "ControllerPublishVolume Volume ID must be provided"), [])
  else if req.nodeId = "" then
    (.error (.statusErr .InvalidArgument "ControllerPublishVolume Node ID must be provided"), [])
  else if req.volumeCapability.isNone then
    (.error (.statusErr .InvalidArgument "ControllerPublishVolume Volume capability must be provided"), [])
  else if req.readonly then
    (.error (.statusErr .AlreadyExists "read only Volumes are not supported"), [])
  else
    let attachRequest : VolumeRequest := { serverUUIDs := some [req.nodeId] }
    match b.updateResult with
    | .error err =>
      if maxVolumesPerServerErrorMessageRe err.errorString then
        (.error (.statusErr .ResourceExhausted err.errorString),
         [Call.update req.volumeId attachRequest])
      else
        (.error (reraiseNotFound err "attaching volume"),
         [Call.update req.volumeId attachRequest])
    | .ok _ =>
      match b.getResult with
      | .error err =>
        (.error (reraiseNotFound err "fetch volume"),
         [Call.update req.volumeId attachRequest, Call.get req.volumeId])
      | .ok volume =>
        (.ok ⟨[(PublishInfoVolumeName, volume.name),
               (LuksEncryptedAttribute, lookupParam req.volumeContext LuksEncryptedAttribute),
               (LuksCipherAttribute, lookupParam req.volumeContext LuksCipherAttribute),
               (LuksKeySizeAttribute, lookupParam req.volumeContext LuksKeySizeAttribute)]⟩,
         [Call.update req.volumeId attachRequest, Call.get req.volumeId])

/-- A `csi.ControllerExpandVolumeRequest`. -/
structure ControllerExpandVolumeRequest where
  volumeId : String
  capacityRange : Option CapacityRange := none
  volumeCapability : Option VolumeCapability := none
deriving DecidableEq, Repr

/-- A `csi.ControllerExpandVolumeResponse`. -/
structure ControllerExpandVolumeResponse where
  capacityBytes : Int
  nodeExpansionRequired : Bool
deriving DecidableEq, Repr

/-- The node-expansion flag computed at the end of `ControllerExpandVolume`
(controller.go lines 531-538): `true` unless the supplied capability
declares raw block access. -/
def nodeExpansionFor : Option VolumeCapability → Bool
  | some cap =>
    match cap.accessType with
    | .block => false
    | _ => true
  | none => true

/-- Whether the supplied capability declares raw block access. -/
def accessTypeIsBlock : Option VolumeCapability → Bool
  | some cap =>
    match cap.accessType with
    | .block => true
    | _ => false
  | none => false

/-- controller.go `ControllerExpandVolume` (lines 487-541). -/
def ControllerExpandVolume (d : Driver) (b : VolumesBackend)
    (req : ControllerExpandVolumeRequest) :
    Except DriverErr ControllerExpandVolumeResponse × List Call :=
  if req.volumeId.length = 0 then
    (.error (.statusErr .InvalidArgument "ControllerExpandVolume volume ID missing in request"), [])
  else
    match b.getResult with
    | .error err =>
      (.error (.statusErr .Internal
        ("ControllerExpandVolume could not retrieve existing volume: " ++ err.errorString)),
       [Call.get req.volumeId])
    | .ok volume =>
      match calculateStorageGB req.capacityRange volume.type with
      | .error err =>
        (.error (.statusErr .OutOfRange
          ("ControllerExpandVolume invalid capacity range: " ++ calcErrMessage err)),
         [Call.get req.volumeId])
      | .ok resizeGigaBytes =>
        if resizeGigaBytes ≤ volume.sizeGB then
          (.ok ⟨wrap64 (volume.sizeGB * GB), true⟩, [Call.get req.volumeId])
        else
          let volumeReq : VolumeRequest := { sizeGB := resizeGigaBytes }
          match b.updateResult with
          | .error err =>
            (.error (.statusErr .Internal
              ("cannot resize volume " ++ req.volumeId ++ ": " ++ err.errorString)),
             [Call.get req.volumeId, Call.update volume.uuid volumeReq])
          | .ok _ =>
            let nodeExpansionRequired := nodeExpansionFor req.volumeCapability
            (.ok ⟨wrap64 (resizeGigaBytes * GB), nodeExpansionRequired⟩,
             [Call.get req.volumeId, Call.update volume.uuid volumeReq])

/-- The gRPC status code of an operation result, if the result is a status
error. -/
def resultCode {α : Type} : Except DriverErr α → Option Code
  | .error (.statusErr c _) => some c
  | _ => none

/-- The volume identifier of a successful `CreateVolume` result. -/
def resultVolumeId : Except DriverErr CreateVolumeResponse → Option String
  | .ok r => some r.volume.volumeId
  | .error _ => none

/-- A backend whose every call succeeds, used by the concrete witnesses. -/
def witnessBackend : VolumesBackend :=
  { listResult := .ok []
    createResult := .ok ⟨"uuid-new", "vol", 1, "ssd", []⟩
    getResult := .ok ⟨"uuid-1", "vol", 5, "ssd", []⟩
    updateResult := .ok ()
    deleteResult := .ok () }

/-- The attach-limit message the cloudscale API returns (as reproduced by the
repository's fake client in driver_test.go). -/
def attachLimitMessage : String :=
  "Due to internal limitations, it is currently not possible to attach more than 128 volumes"

/-- A valid create request whose zone requirement names a zone other than the
controller's. -/
def zoneMismatchReq : CreateVolumeRequest :=
  { name := "vol"
    volumeCapabilities := [⟨some .SINGLE_NODE_WRITER, .mount⟩]
    accessibilityRequirements := some ⟨[⟨[("zone", "other")]⟩]⟩ }

/-- A minimal valid create request (no capacity range: negotiated size 1 GB
of type "ssd"). -/
def idemHitReq : CreateVolumeRequest :=
  { name := "vol", volumeCapabilities := [⟨some .SINGLE_NODE_WRITER, .mount⟩] }

/-- `wrap64` is the identity on values representable in `int64`. -/
theorem wrap64_eq_self (x : Int) (h1 : -(2 ^ 63) ≤ x) (h2 : x < 2 ^ 63) : wrap64 x = x := by
  unfold wrap64; omega

/-- A nonempty string has nonzero length. -/
theorem length_ne_zero_of_ne_empty (s : String) (h : s ≠ "") : ¬s.length = 0 := by
  intro h0
  apply h
  cases s with
  | mk data =>
    simp only [String.length] at h0
    simp only [List.length_eq_zero] at h0
    simp [h0]

/-- If some requisite topology carries a "zone" segment different from the
controller's zone, the zone loop reports a conflict. -/
theorem zoneConflict_of_mem {dz z : String} {ts : List Topology} {t : Topology}
    (ht : t ∈ ts) (hz : lookupKey t.segments "zone" = some z) (hne : z ≠ dz) :
    ∃ z', zoneConflict dz ts = some z' := by
  induction ts with
  | nil => cases ht
  | cons head tail ih =>
    rcases List.mem_cons.mp ht with rfl | hmem
    · simp only [zoneConflict, hz]
      rw [if_pos hne]
      exact ⟨z, rfl⟩
    · simp only [zoneConflict]
      cases hk : lookupKey head.segments "zone" with
      | none => exact ih hmem
      | some z0 =>
        dsimp only
        by_cases h0 : z0 ≠ dz
        · rw [if_pos h0]; exact ⟨z0, rfl⟩
        · rw [if_neg h0]; exact ih hmem

/-- C1 (the code at the failing input): for a capacity range with no required
minimum and only a limit, `calculateStorageGB` does fail when the limit is
below one allocation step, but when the limit is at or above one step it
returns `0`, not one allocation step as the claim states. -/
theorem calculateStorageGB_limit_only_eval :
    calculateStorageGB (some ⟨0, GB⟩) "ssd" = .ok 0 ∧
    calculateStorageGB (some ⟨0, 100 * GB⟩) "bulk" = .ok 0 ∧
    calculateStorageGB (some ⟨0, 50 * GB⟩) "bulk" = .error .limitBelowMinimumStep :=
  ⟨rfl, rfl, rfl⟩

/-- C10: `calculateStorageGB` treats non-positive size bounds as unspecified:
for every storage type, a capacity range whose required and limit bytes are
both ≤ 0 yields exactly one allocation step with no error, the same result
as a nil capacity range. -/
theorem calculateStorageGB_nonpositive_defaults (cr : CapacityRange) (t : String)
    (hreq : cr.requiredBytes ≤ 0) (hlim : cr.limitBytes ≤ 0) :
    calculateStorageGB (some cr) t = .ok (if t = "bulk" then BulkStepSizeGB else SSDStepSizeGB) ∧
    calculateStorageGB (some cr) t = calculateStorageGB none t := by
  have h : calculateStorageGB (some cr) t
      = .ok (if t = "bulk" then BulkStepSizeGB else SSDStepSizeGB) := by
    simp only [calculateStorageGB]
    rw [if_pos ⟨by omega, by omega⟩]
  exact ⟨h, by rw [h]; rfl⟩

/-- Witness for C10 at `requiredBytes = -5`, `limitBytes = 0`, type "bulk". -/
theorem calculateStorageGB_nonpositive_defaults_witness :
    calculateStorageGB (some ⟨-5, 0⟩) "bulk" = .ok 100 ∧
    calculateStorageGB (some ⟨-5, 0⟩) "bulk" = calculateStorageGB none "bulk" := by
  have h := calculateStorageGB_nonpositive_defaults ⟨-5, 0⟩ "bulk" (by decide) (by decide)
  exact ⟨h.1, h.2⟩

/-- C8: for every capacity range with a positive required minimum (within
`int64` range) on which `calculateStorageGB` succeeds, the returned size in
GB is the smallest multiple of the type's allocation step whose byte value
(gigabyte = 1024³) is at least the required bytes. -/
theorem calculateStorageGB_rounds_up_minimal (cr : CapacityRange) (t : String) (n : Int)
    (hr : 0 < cr.requiredBytes) (hr63 : cr.requiredBytes < 2 ^ 63)
    (hok : calculateStorageGB (some cr) t = .ok n) :
    n % (if t = "bulk" then BulkStepSizeGB else SSDStepSizeGB) = 0 ∧
    cr.requiredBytes ≤ n * GB ∧
    ∀ m : Int, m % (if t = "bulk" then BulkStepSizeGB else SSDStepSizeGB) = 0 →
      cr.requiredBytes ≤ m * GB → n ≤ m := by
  have hGB : (0 : Int) ≤ GB := by norm_num [GB]
  have hq : (0 : Int) ≤ cr.requiredBytes / GB := Int.ediv_nonneg hr.le hGB
  have ht1 : cr.requiredBytes.tdiv GB = cr.requiredBytes / GB := Int.tdiv_eq_ediv hr.le hGB
  by_cases hb : t = "bulk"
  · have ht2 : (cr.requiredBytes / GB).tdiv BulkStepSizeGB
        = cr.requiredBytes / GB / BulkStepSizeGB :=
      Int.tdiv_eq_ediv hq (by norm_num [BulkStepSizeGB])
    simp only [calculateStorageGB, hb, eq_self_iff_true, if_true] at hok
    rw [ht1, ht2] at hok
    simp only [GB, BulkStepSizeGB] at hok
    simp only [hb, eq_self_iff_true, if_true, GB, BulkStepSizeGB]
    have h1 : wrap64 (cr.requiredBytes / 1073741824 / 100 * 1073741824)
        = cr.requiredBytes / 1073741824 / 100 * 1073741824 := by unfold wrap64; omega
    have h2 : wrap64 (cr.requiredBytes / 1073741824 / 100 * 1073741824 * 100)
        = cr.requiredBytes / 1073741824 / 100 * 1073741824 * 100 := by unfold wrap64; omega
    have h3 : wrap64 (cr.requiredBytes / 1073741824 / 100 * 100)
        = cr.requiredBytes / 1073741824 / 100 * 100 := by unfold wrap64; omega
    have h4 : wrap64 ((cr.requiredBytes / 1073741824 / 100 + 1) * 100)
        = (cr.requiredBytes / 1073741824 / 100 + 1) * 100 := by unfold wrap64; omega
    rw [h1, h2] at hok
    split_ifs at hok <;>
      first
      | exact Except.noConfusion hok
      | (exfalso; omega)
      | (simp only [h3, h4, Except.ok.injEq] at hok; subst hok;
         exact ⟨by omega, by omega, fun m hm hle => by omega⟩)
  · have ht2 : (cr.requiredBytes / GB).tdiv SSDStepSizeGB
        = cr.requiredBytes / GB / SSDStepSizeGB :=
      Int.tdiv_eq_ediv hq (by norm_num [SSDStepSizeGB])
    simp only [calculateStorageGB, hb, if_false] at hok
    rw [ht1, ht2] at hok
    simp only [GB, SSDStepSizeGB] at hok
    simp only [hb, if_false, GB, SSDStepSizeGB]
    have h1 : wrap64 (cr.requiredBytes / 1073741824 / 1 * 1073741824)
        = cr.requiredBytes / 1073741824 / 1 * 1073741824 := by unfold wrap64; omega
    have h2 : wrap64 (cr.requiredBytes / 1073741824 / 1 * 1073741824 * 1)
        = cr.requiredBytes / 1073741824 / 1 * 1073741824 * 1 := by unfold wrap64; omega
    have h3 : wrap64 (cr.requiredBytes / 1073741824 / 1 * 1)
        = cr.requiredBytes / 1073741824 / 1 * 1 := by unfold wrap64; omega
    have h4 : wrap64 ((cr.requiredBytes / 1073741824 / 1 + 1) * 1)
        = (cr.requiredBytes / 1073741824 / 1 + 1) * 1 := by unfold wrap64; omega
    rw [h1, h2] at hok
    split_ifs at hok <;>
      first
      | exact Except.noConfusion hok
      | (exfalso; omega)
      | (simp only [h3, h4, Except.ok.injEq] at hok; subst hok;
         exact ⟨by omega, by omega, fun m hm hle => by omega⟩)

/-- Witness for C8: the spec's two examples, `required = 4 GiB` with type
"ssd" yields 4 and `required = 150 GiB` with type "bulk" yields 200, with
minimality instantiated at the bulk example. -/
theorem calculateStorageGB_rounds_up_minimal_witness :
    calculateStorageGB (some ⟨4 * GB, 0⟩) "ssd" = .ok 4 ∧
    calculateStorageGB (some ⟨150 * GB, 0⟩) "bulk" = .ok 200 ∧
    (200 : Int) % 100 = 0 ∧ (150 * GB : Int) ≤ 200 * GB ∧
    ∀ m : Int, m % 100 = 0 → (150 * GB : Int) ≤ m * GB → (200 : Int) ≤ m := by
  have h := calculateStorageGB_rounds_up_minimal ⟨150 * GB, 0⟩ "bulk" 200
    (by decide) (by decide) (by rfl)
  exact ⟨rfl, rfl, h.1, h.2.1, h.2.2⟩

/-- C2 (amended): for every CreateVolume request with a non-empty name and
satisfiable capabilities whose accessibility requirements contain a requisite
zone segment different from the controller's configured zone, the call fails
with `ResourceExhausted` (not `InvalidArgument` as the claim states), before
any remote call is made. -/
theorem createVolume_zone_conflict_resource_exhausted (d : Driver) (b : VolumesBackend)
    (req : CreateVolumeRequest) (ar : TopologyRequirement) (t : Topology) (z : String)
    (hname : req.name ≠ "") (hcaps : req.volumeCapabilities ≠ [])
    (hvalid : validateCapabilities req.volumeCapabilities = [])
    (har : req.accessibilityRequirements = some ar)
    (ht : t ∈ ar.requisite) (hz : lookupKey t.segments "zone" = some z)
    (hne : z ≠ d.zone) :
    resultCode (CreateVolume d b req).1 = some .ResourceExhausted ∧
    (CreateVolume d b req).2 = [] := by
  obtain ⟨z', hzc⟩ := zoneConflict_of_mem ht hz hne
  have hrz : requestZoneConflict d.zone req.accessibilityRequirements = some z' := by
    rw [har]; exact hzc
  simp only [CreateVolume, hrz]
  rw [if_neg hname]
  rw [if_neg (by simpa [List.length_eq_zero] using hcaps)]
  rw [if_neg (by simp [hvalid])]
  exact ⟨rfl, rfl⟩

/-- C2 counterexample: at a valid request whose requisite zone "other"
differs from the controller zone "dev1", the call fails with
`ResourceExhausted`, not with `InvalidArgument` as the claim states. -/
theorem createVolume_zone_conflict_counterexample :
    resultCode (CreateVolume ⟨"dev1"⟩ witnessBackend zoneMismatchReq).1
      = some .ResourceExhausted ∧
    resultCode (CreateVolume ⟨"dev1"⟩ witnessBackend zoneMismatchReq).1
      ≠ some .InvalidArgument := by
  exact ⟨by rfl, by
    intro h
    rw [show resultCode (CreateVolume ⟨"dev1"⟩ witnessBackend zoneMismatchReq).1
      = some .ResourceExhausted from rfl] at h
    cases h⟩

/-- Witness for the amended C2 at the concrete mismatching request. -/
theorem createVolume_zone_conflict_resource_exhausted_witness :
    resultCode (CreateVolume ⟨"dev1"⟩ witnessBackend zoneMismatchReq).1
      = some .ResourceExhausted ∧
    (CreateVolume ⟨"dev1"⟩ witnessBackend zoneMismatchReq).2 = [] := by
  exact createVolume_zone_conflict_resource_exhausted ⟨"dev1"⟩ witnessBackend zoneMismatchReq
    ⟨[⟨[("zone", "other")]⟩]⟩ ⟨[("zone", "other")]⟩ "other"
    (by decide) (by decide) (by rfl) rfl (by simp [zoneMismatchReq]) rfl (by decide)

/-- C3: for every CreateVolume request that passes validation and whose
lookup-by-name returns exactly one existing volume whose size equals the
negotiated size, the call succeeds returning that existing volume's
identifier, and the trace is exactly one List call: no remote Create or any
other mutating backend call is issued. -/
theorem createVolume_idempotent_hit (d : Driver) (b : VolumesBackend)
    (req : CreateVolumeRequest) (vol : Volume) (sizeGB : Int)
    (hname : req.name ≠ "") (hcaps : req.volumeCapabilities ≠ [])
    (hvalid : validateCapabilities req.volumeCapabilities = [])
    (hzone : requestZoneConflict d.zone req.accessibilityRequirements = none)
    (hty : effectiveStorageType req = "ssd" ∨ effectiveStorageType req = "bulk")
    (hsize : calculateStorageGB req.capacityRange (effectiveStorageType req) = .ok sizeGB)
    (hluks : lookupParam req.parameters LuksEncryptedAttribute = "true" →
      validateLuksCapabilities req.volumeCapabilities = [])
    (hlist : b.listResult = .ok [vol])
    (hveq : vol.sizeGB = sizeGB) :
    resultVolumeId (CreateVolume d b req).1 = some vol.uuid ∧
    (CreateVolume d b req).2 = [Call.list (some req.name)] := by
  simp only [CreateVolume, hzone, hsize, hlist]
  rw [if_neg hname]
  rw [if_neg (by simpa [List.length_eq_zero] using hcaps)]
  rw [if_neg (by simp [hvalid])]
  rw [if_neg (by rcases hty with h | h <;> simp [h])]
  rw [if_neg (by
    by_cases hl : lookupParam req.parameters LuksEncryptedAttribute = "true"
    · simp [hl, hluks hl]
    · simp [hl])]
  simp only [List.length_nil, gt_iff_lt, lt_self_iff_false, if_false]
  rw [if_neg (by simp [hveq])]
  exact ⟨rfl, rfl⟩

/-- Witness for C3: an existing 1-GB volume matching the negotiated 1 GB:
its identifier is returned and only the List call is made. -/
theorem createVolume_idempotent_hit_witness :
    resultVolumeId (CreateVolume ⟨"dev1"⟩
        { witnessBackend with listResult := .ok [⟨"uuid-1", "vol", 1, "ssd", []⟩] }
        idemHitReq).1 = some "uuid-1" ∧
    (CreateVolume ⟨"dev1"⟩
        { witnessBackend with listResult := .ok [⟨"uuid-1", "vol", 1, "ssd", []⟩] }
        idemHitReq).2 = [Call.list (some "vol")] := by
  exact createVolume_idempotent_hit ⟨"dev1"⟩ _ idemHitReq ⟨"uuid-1", "vol", 1, "ssd", []⟩ 1
    (by decide) (by decide) (by rfl) rfl (Or.inl rfl) (by rfl) (fun h => by rfl) rfl rfl

/-- C4: for every CreateVolume request that passes validation and whose
lookup-by-name returns exactly one existing volume whose size differs from
the negotiated size, the call fails with `AlreadyExists` and the trace is
exactly one List call: no remote mutation is performed. -/
theorem createVolume_size_mismatch_already_exists (d : Driver) (b : VolumesBackend)
    (req : CreateVolumeRequest) (vol : Volume) (sizeGB : Int)
    (hname : req.name ≠ "") (hcaps : req.volumeCapabilities ≠ [])
    (hvalid : validateCapabilities req.volumeCapabilities = [])
    (hzone : requestZoneConflict d.zone req.accessibilityRequirements = none)
    (hty : effectiveStorageType req = "ssd" ∨ effectiveStorageType req = "bulk")
    (hsize : calculateStorageGB req.capacityRange (effectiveStorageType req) = .ok sizeGB)
    (hluks : lookupParam req.parameters LuksEncryptedAttribute = "true" →
      validateLuksCapabilities req.volumeCapabilities = [])
    (hlist : b.listResult = .ok [vol])
    (hvne : vol.sizeGB ≠ sizeGB) :
    resultCode (CreateVolume d b req).1 = some .AlreadyExists ∧
    (CreateVolume d b req).2 = [Call.list (some req.name)] := by
  simp only [CreateVolume, hzone, hsize, hlist]
  rw [if_neg hname]
  rw [if_neg (by simpa [List.length_eq_zero] using hcaps)]
  rw [if_neg (by simp [hvalid])]
  rw [if_neg (by rcases hty with h | h <;> simp [h])]
  rw [if_neg (by
    by_cases hl : lookupParam req.parameters LuksEncryptedAttribute = "true"
    · simp [hl, hluks hl]
    · simp [hl])]
  simp only [List.length_nil, gt_iff_lt, lt_self_iff_false, if_false]
  rw [if_pos hvne]
  exact ⟨rfl, rfl⟩

/-- Witness for C4: an existing 7-GB volume against a negotiated 1 GB:
`AlreadyExists`, and only the List call is made. -/
theorem createVolume_size_mismatch_already_exists_witness :
    resultCode (CreateVolume ⟨"dev1"⟩
        { witnessBackend with listResult := .ok [⟨"uuid-1", "vol", 7, "ssd", []⟩] }
        idemHitReq).1 = some .AlreadyExists ∧
    (CreateVolume ⟨"dev1"⟩
        { witnessBackend with listResult := .ok [⟨"uuid-1", "vol", 7, "ssd", []⟩] }
        idemHitReq).2 = [Call.list (some "vol")] := by
  exact createVolume_size_mismatch_already_exists ⟨"dev1"⟩ _ idemHitReq
    ⟨"uuid-1", "vol", 7, "ssd", []⟩ 1
    (by decide) (by decide) (by rfl) rfl (Or.inl rfl) (by rfl) (fun h => by rfl) rfl (by decide)

/-- C5: for every DeleteVolume call with a non-empty volume identifier on
which the backend delete fails, a structured 404 error yields success with
an empty response, and every other backend error is returned to the caller
unmodified. -/
theorem deleteVolume_not_found_idempotent (d : Driver) (b : VolumesBackend)
    (req : DeleteVolumeRequest) (e : BackendErr)
    (hid : req.volumeId ≠ "") (herr : b.deleteResult = .error e) :
    (DeleteVolume d b req).1 =
      (if isNotFoundResponse e then .ok ⟨⟩ else .error (.backendErr e)) := by
  simp only [DeleteVolume, herr]
  rw [if_neg hid]
  cases e with
  | errorResponse sc m =>
    simp only [isNotFoundResponse]
    by_cases h : sc = 404
    · simp [h]
    · simp [h]
  | other m => simp [isNotFoundResponse]

/-- Witness for C5: a 404 delete succeeds; a plain backend error is passed
through unmodified. -/
theorem deleteVolume_not_found_idempotent_witness :
    (DeleteVolume ⟨"dev1"⟩
        { witnessBackend with deleteResult := .error (.errorResponse 404 "not found") }
        ⟨"vol-1"⟩).1 = .ok ⟨⟩ ∧
    (DeleteVolume ⟨"dev1"⟩
        { witnessBackend with deleteResult := .error (.other "backend exploded") }
        ⟨"vol-1"⟩).1 = .error (.backendErr (.other "backend exploded")) := by
  constructor
  · exact deleteVolume_not_found_idempotent ⟨"dev1"⟩ _ ⟨"vol-1"⟩
      (.errorResponse 404 "not found") (by decide) rfl
  · exact deleteVolume_not_found_idempotent ⟨"dev1"⟩ _ ⟨"vol-1"⟩
      (.other "backend exploded") (by decide) rfl

/-- C6: for every ControllerExpandVolume call on a fetchable volume where
the negotiated size is not greater than the current size, no backend update
is issued (the trace is exactly the Get call) and the response carries the
current size converted to bytes with `nodeExpansionRequired = true`, for
every supplied capability (the request, hence its capability, is
arbitrary). -/
theorem expandVolume_no_shrink_frame (d : Driver) (b : VolumesBackend)
    (req : ControllerExpandVolumeRequest) (vol : Volume) (n : Int)
    (hid : req.volumeId ≠ "")
    (hget : b.getResult = .ok vol)
    (hcalc : calculateStorageGB req.capacityRange vol.type = .ok n)
    (hle : n ≤ vol.sizeGB)
    (hsz0 : 0 ≤ vol.sizeGB) (hsz33 : vol.sizeGB < 2 ^ 33) :
    (ControllerExpandVolume d b req).1 = .ok ⟨vol.sizeGB * GB, true⟩ ∧
    (ControllerExpandVolume d b req).2 = [Call.get req.volumeId] := by
  have hw : wrap64 (vol.sizeGB * GB) = vol.sizeGB * GB :=
    wrap64_eq_self _ (by simp only [GB]; omega) (by simp only [GB]; omega)
  simp only [ControllerExpandVolume, hget, hcalc]
  rw [if_neg (length_ne_zero_of_ne_empty _ hid), if_pos hle, hw]
  exact ⟨rfl, rfl⟩

/-- Witness for C6: requesting 4 GiB on a 5-GB volume leaves the backend
untouched and reports the current 5 GB with node expansion required. -/
theorem expandVolume_no_shrink_frame_witness :
    (ControllerExpandVolume ⟨"dev1"⟩ witnessBackend
        { volumeId := "vol-1", capacityRange := some ⟨4 * GB, 0⟩ }).1
      = .ok ⟨5 * GB, true⟩ ∧
    (ControllerExpandVolume ⟨"dev1"⟩ witnessBackend
        { volumeId := "vol-1", capacityRange := some ⟨4 * GB, 0⟩ }).2
      = [Call.get "vol-1"] := by
  exact expandVolume_no_shrink_frame ⟨"dev1"⟩ witnessBackend _ ⟨"uuid-1", "vol", 5, "ssd", []⟩ 4
    (by decide) rfl (by rfl) (by decide) (by decide) (by decide)

/-- C7: for every ControllerExpandVolume call where the negotiated size
exceeds the current size and the backend resize succeeds, the response
carries the new size converted to bytes, and `nodeExpansionRequired` is
false iff the supplied capability declares block (raw) access: it is true
for mount access and when no capability is supplied. -/
theorem expandVolume_grow_node_expansion (d : Driver) (b : VolumesBackend)
    (req : ControllerExpandVolumeRequest) (vol : Volume) (n : Int)
    (hid : req.volumeId ≠ "")
    (hget : b.getResult = .ok vol)
    (hcalc : calculateStorageGB req.capacityRange vol.type = .ok n)
    (hgt : vol.sizeGB < n) (hn0 : 0 ≤ n) (hn33 : n < 2 ^ 33)
    (hupd : b.updateResult = .ok ()) :
    (ControllerExpandVolume d b req).1
      = .ok ⟨n * GB, nodeExpansionFor req.volumeCapability⟩ ∧
    (nodeExpansionFor req.volumeCapability = false ↔
      accessTypeIsBlock req.volumeCapability = true) := by
  have hw : wrap64 (n * GB) = n * GB :=
    wrap64_eq_self _ (by simp only [GB]; omega) (by simp only [GB]; omega)
  constructor
  · simp only [ControllerExpandVolume, hget, hcalc, hupd]
    rw [if_neg (length_ne_zero_of_ne_empty _ hid), if_neg (by omega : ¬n ≤ vol.sizeGB), hw]
  · cases hc : req.volumeCapability with
    | none => simp [nodeExpansionFor, accessTypeIsBlock]
    | some c =>
      cases c with
      | mk am at_ =>
        cases at_ <;> simp [nodeExpansionFor, accessTypeIsBlock]

/-- Witness for C7: growing a 5-GB volume to 10 GB with a block capability
sets `nodeExpansionRequired = false`; with a mount capability it is true. -/
theorem expandVolume_grow_node_expansion_witness :
    (ControllerExpandVolume ⟨"dev1"⟩ witnessBackend
        { volumeId := "vol-1", capacityRange := some ⟨10 * GB, 0⟩,
          volumeCapability := some ⟨some .SINGLE_NODE_WRITER, .block⟩ }).1
      = .ok ⟨10 * GB, false⟩ ∧
    (ControllerExpandVolume ⟨"dev1"⟩ witnessBackend
        { volumeId := "vol-1", capacityRange := some ⟨10 * GB, 0⟩,
          volumeCapability := some ⟨some .SINGLE_NODE_WRITER, .mount⟩ }).1
      = .ok ⟨10 * GB, true⟩ := by
  constructor
  · exact (expandVolume_grow_node_expansion ⟨"dev1"⟩ witnessBackend _
      ⟨"uuid-1", "vol", 5, "ssd", []⟩ 10 (by decide) rfl (by rfl)
      (by decide) (by decide) (by decide) rfl).1
  · exact (expandVolume_grow_node_expansion ⟨"dev1"⟩ witnessBackend _
      ⟨"uuid-1", "vol", 5, "ssd", []⟩ 10 (by decide) rfl (by rfl)
      (by decide) (by decide) (by decide) rfl).1

/-- C9: for every ControllerPublishVolume call whose backend attach update
fails with an error whose message matches the attach-limit phrase, the call
fails with `ResourceExhausted`; the error `e` is arbitrary, so the
translation takes precedence over the not-found/aborted translation
regardless of the error's structured status. -/
theorem publishVolume_attach_limit_resource_exhausted (d : Driver) (b : VolumesBackend)
    (req : ControllerPublishVolumeRequest) (e : BackendErr)
    (hvid : req.volumeId ≠ "") (hnid : req.nodeId ≠ "")
    (hcap : req.volumeCapability.isNone = false) (hro : req.readonly = false)
    (hupd : b.updateResult = .error e)
    (hmatch : maxVolumesPerServerErrorMessageRe e.errorString = true) :
    (ControllerPublishVolume d b req).1
      = .error (.statusErr .ResourceExhausted e.errorString) := by
  simp only [ControllerPublishVolume, hupd, hro]
  rw [if_neg hvid, if_neg hnid]
  rw [if_neg (by simp [hcap])]
  rw [if_neg (by simp)]
  rw [if_pos hmatch]

/-- Witness for C9: the attach-limit message inside a structured 404 error
still yields `ResourceExhausted`, not `NotFound`. -/
theorem publishVolume_attach_limit_resource_exhausted_witness :
    (ControllerPublishVolume ⟨"dev1"⟩
        { witnessBackend with updateResult := .error (.errorResponse 404 attachLimitMessage) }
        { volumeId := "vol-1", nodeId := "node-1",
          volumeCapability := some ⟨some .SINGLE_NODE_WRITER, .mount⟩ }).1
      = .error (.statusErr .ResourceExhausted attachLimitMessage) := by
  exact publishVolume_attach_limit_resource_exhausted ⟨"dev1"⟩ _ _
    (.errorResponse 404 attachLimitMessage) (by decide) (by decide) rfl rfl rfl (by rfl)

end CSC
